import Mathlib

set_option linter.unusedVariables false

/-!
Shallow embedding of the kraken DevTools dispatch/session slice:
the Page and Log domain backends (`jsc_page_agent_impl`,
`jsc_log_agent_impl`) and the `ScriptParsedNotification` protocol value
type with its compile-time-checked builder
(`script_parsed_notification.h`), together with theorems checking the
specification's claims about them.

C++ machine integers carry no arithmetic here (they are only stored and
read back), so `int` is embedded as `Int`.  The builder's template
parameter `STATE : int` becomes a `Nat` type index, and each
`static_assert` in the source becomes a proof obligation on that index:
a call the C++ compiler rejects is a Lean term with an unprovable
hypothesis.
-/

/-- Modelled from the spec: `DispatchResponse` (its header is not under
`src/`) is "either success (optionally carrying typed result fields) or
failure (message string + optional error code)"; the sources use only
`DispatchResponse::OK()` and `DispatchResponse::Error(message)`. -/
inductive DispatchResponse where
  | OK : DispatchResponse
  | Error (message : String) : DispatchResponse
deriving DecidableEq, Repr

/-- Modelled from the spec: `Maybe<T>` (its header `error_support.h` is
not under `src/`) is the "present-or-absent with typed default" wrapper;
embedded as `Option`. -/
def Maybe (α : Type) : Type := Option α

/-- Modelled from the spec: the protocol handler reachable through
`InspectorSessionImpl::protocolHandler()` (header not under `src/`).
The only operation the sources call on it is the page-reload hook
`handlePageReload()`, a pure side effect, so the handler itself carries
no data. -/
structure ProtocolHandler where
  unit : Unit
deriving DecidableEq, Repr

/-- Modelled from the spec: the slice of `InspectorSessionImpl` (header
not under `src/`) that the agents read — its `protocolHandler()`
accessor, which may return null. -/
structure InspectorSessionImpl where
  protocolHandler : Option ProtocolHandler
deriving DecidableEq, Repr

/-- State of `JSCPageAgentImpl` (`jsc_page_agent_impl.h`): the
`m_enabled{false}` flag and the (possibly null) `m_session` pointer. -/
structure JSCPageAgentImpl where
  m_enabled : Bool
  m_session : Option InspectorSessionImpl
deriving DecidableEq, Repr

/-- Constructor `JSCPageAgentImpl::JSCPageAgentImpl(session, context)`:
stores `m_session`; `m_enabled` keeps its in-class initializer `false`.
(The `AgentContext` argument is unused by the source constructor.) -/
def JSCPageAgentImpl.init (session : Option InspectorSessionImpl) : JSCPageAgentImpl :=
  { m_enabled := false, m_session := session }

/-- `JSCPageAgentImpl::enable()`: sets `m_enabled = true`, returns
`DispatchResponse::OK()`. -/
def JSCPageAgentImpl.enable (a : JSCPageAgentImpl) : JSCPageAgentImpl × DispatchResponse :=
  ({ a with m_enabled := true }, DispatchResponse.OK)

/-- `JSCPageAgentImpl::disable()`: sets `m_enabled = false`, returns
`DispatchResponse::OK()`. -/
def JSCPageAgentImpl.disable (a : JSCPageAgentImpl) : JSCPageAgentImpl × DispatchResponse :=
  ({ a with m_enabled := false }, DispatchResponse.OK)

/-- `JSCPageAgentImpl::reload(in_ignoreCache, in_scriptToEvaluateOnLoad)`:
`if (m_session && m_session->protocolHandler())` call
`handlePageReload()` and return OK, else return
`Error("session destroyed or protocol handler destroyed")`.
The returned `Nat` counts the `handlePageReload()` invocations this call
performs; the agent state is returned unchanged (the body assigns no
member). -/
def JSCPageAgentImpl.reload (a : JSCPageAgentImpl) (in_ignoreCache : Maybe Bool)
    (in_scriptToEvaluateOnLoad : Maybe String) :
    JSCPageAgentImpl × DispatchResponse × Nat :=
  match a.m_session with
  | some s =>
    match s.protocolHandler with
    | some _ => (a, DispatchResponse.OK, 1)
    | none => (a, DispatchResponse.Error "session destroyed or protocol handler destroyed", 0)
  | none => (a, DispatchResponse.Error "session destroyed or protocol handler destroyed", 0)

/-- Modelled from the spec: a `LogEntry` (its header is not under
`src/`) carries at least a console message level and text, as in
Scenario C: `addMessageToConsole({level: "warning", text: "x"})`. -/
structure LogEntry where
  level : String
  text : String
deriving DecidableEq, Repr

/-- Modelled from the spec: the events a Log backend writes through its
`LogFrontend` channel; the spec names `Log.entryAdded`, "carrying the
entry's content unchanged". -/
inductive LogFrontendEvent where
  | entryAdded (entry : LogEntry) : LogFrontendEvent
deriving DecidableEq, Repr

/-- State of `JSCLogAgentImpl` (`jsc_log_agent_impl.h`): the
`m_enabled{false}` flag and the `m_session` pointer.  The `m_frontend`
channel is represented by returning the list of events each operation
emits. -/
structure JSCLogAgentImpl where
  m_enabled : Bool
  m_session : Option InspectorSessionImpl
deriving DecidableEq, Repr

/-- Constructor `JSCLogAgentImpl::JSCLogAgentImpl(session, context)`
(declared in `jsc_log_agent_impl.h`): `m_enabled` keeps its in-class
initializer `false`; `m_session` is stored. -/
def JSCLogAgentImpl.init (session : Option InspectorSessionImpl) : JSCLogAgentImpl :=
  { m_enabled := false, m_session := session }

/-- Modelled from the spec: the body of `JSCLogAgentImpl::enable()` is
not under `src/` (the header only declares it); the spec says
"`enable()`: idempotent; sets `enabled = true`; returns success". -/
def JSCLogAgentImpl.enable (a : JSCLogAgentImpl) : JSCLogAgentImpl × DispatchResponse :=
  ({ a with m_enabled := true }, DispatchResponse.OK)

/-- Modelled from the spec: the body of `JSCLogAgentImpl::disable()` is
not under `src/`; the spec says "`disable()`: idempotent; sets
`enabled = false`; returns success". -/
def JSCLogAgentImpl.disable (a : JSCLogAgentImpl) : JSCLogAgentImpl × DispatchResponse :=
  ({ a with m_enabled := false }, DispatchResponse.OK)

/-- Modelled from the spec: the body of `JSCLogAgentImpl::clear()` is
not under `src/`; the spec says it drops buffered entries and is
idempotent, and this slice buffers nothing, so it leaves the backend
state unchanged and returns success. -/
def JSCLogAgentImpl.clear (a : JSCLogAgentImpl) : JSCLogAgentImpl × DispatchResponse :=
  (a, DispatchResponse.OK)

/-- Modelled from the spec: the body of
`JSCLogAgentImpl::addMessageToConsole(entry)` is not under `src/` (the
header only declares it); the spec says "if `enabled` is false, the
entry is dropped; if true, it is forwarded immediately as a notification
through the FrontendChannel" as `Log.entryAdded` with the message
content intact.  The returned list is what the frontend channel
observes. -/
def JSCLogAgentImpl.addMessageToConsole (a : JSCLogAgentImpl) (entry : LogEntry) :
    JSCLogAgentImpl × List LogFrontendEvent :=
  if a.m_enabled then (a, [LogFrontendEvent.entryAdded entry]) else (a, [])

/-- Modelled from the spec: an opaque structured-document value
(`rapidjson::Value`, external collaborator per §1); the notification
only stores and returns it, so its contents are immaterial and it is
embedded as a wrapped string. -/
structure RapidjsonValue where
  data : String
deriving DecidableEq, Repr

/-- Modelled from the spec: `StackTrace` (`stacktrace.h` is not under
`src/`) is a "structured value" the notification only stores and
returns; embedded as a wrapped string. -/
structure StackTrace where
  data : String
deriving DecidableEq, Repr

/-- The fields of `ScriptParsedNotification`
(`script_parsed_notification.h`): eight required fields and seven
`Maybe`-wrapped optional fields, exactly as the private members of the
class. -/
structure ScriptParsedNotification where
  m_scriptId : String
  m_url : String
  m_startLine : Int
  m_startColumn : Int
  m_endLine : Int
  m_endColumn : Int
  m_executionContextId : Int
  m_hash : String
  m_executionContextAuxData : Option RapidjsonValue
  m_isLiveEdit : Option Bool
  m_sourceMapURL : Option String
  m_hasSourceURL : Option Bool
  m_isModule : Option Bool
  m_length : Option Int
  m_stackTrace : Option StackTrace
deriving DecidableEq, Repr

namespace ScriptParsedNotification

/-- The private constructor `ScriptParsedNotification()`: the five `int`
members are assigned 0; the `std::string` members are default-initialized
(empty) and the `Maybe` members are absent. -/
def ctor : ScriptParsedNotification :=
  { m_scriptId := ""
    m_url := ""
    m_startLine := 0
    m_startColumn := 0
    m_endLine := 0
    m_endColumn := 0
    m_executionContextId := 0
    m_hash := ""
    m_executionContextAuxData := none
    m_isLiveEdit := none
    m_sourceMapURL := none
    m_hasSourceURL := none
    m_isModule := none
    m_length := none
    m_stackTrace := none }

def getScriptId (n : ScriptParsedNotification) : String := n.m_scriptId

def setScriptId (n : ScriptParsedNotification) (value : String) : ScriptParsedNotification :=
  { n with m_scriptId := value }

def getUrl (n : ScriptParsedNotification) : String := n.m_url

def setUrl (n : ScriptParsedNotification) (value : String) : ScriptParsedNotification :=
  { n with m_url := value }

def getStartLine (n : ScriptParsedNotification) : Int := n.m_startLine

def setStartLine (n : ScriptParsedNotification) (value : Int) : ScriptParsedNotification :=
  { n with m_startLine := value }

def getStartColumn (n : ScriptParsedNotification) : Int := n.m_startColumn

def setStartColumn (n : ScriptParsedNotification) (value : Int) : ScriptParsedNotification :=
  { n with m_startColumn := value }

def getEndLine (n : ScriptParsedNotification) : Int := n.m_endLine

def setEndLine (n : ScriptParsedNotification) (value : Int) : ScriptParsedNotification :=
  { n with m_endLine := value }

def getEndColumn (n : ScriptParsedNotification) : Int := n.m_endColumn

def setEndColumn (n : ScriptParsedNotification) (value : Int) : ScriptParsedNotification :=
  { n with m_endColumn := value }

def getExecutionContextId (n : ScriptParsedNotification) : Int := n.m_executionContextId

def setExecutionContextId (n : ScriptParsedNotification) (value : Int) : ScriptParsedNotification :=
  { n with m_executionContextId := value }

def getHash (n : ScriptParsedNotification) : String := n.m_hash

def setHash (n : ScriptParsedNotification) (value : String) : ScriptParsedNotification :=
  { n with m_hash := value }

def hasExecutionContextAuxData (n : ScriptParsedNotification) : Bool :=
  n.m_executionContextAuxData.isSome

def getExecutionContextAuxData (n : ScriptParsedNotification) (defaultValue : RapidjsonValue) :
    RapidjsonValue :=
  match n.m_executionContextAuxData with
  | some v => v
  | none => defaultValue

def setExecutionContextAuxData (n : ScriptParsedNotification) (value : RapidjsonValue) :
    ScriptParsedNotification :=
  { n with m_executionContextAuxData := some value }

def hasIsLiveEdit (n : ScriptParsedNotification) : Bool := n.m_isLiveEdit.isSome

def getIsLiveEdit (n : ScriptParsedNotification) (defaultValue : Bool) : Bool :=
  match n.m_isLiveEdit with
  | some v => v
  | none => defaultValue

def setIsLiveEdit (n : ScriptParsedNotification) (value : Bool) : ScriptParsedNotification :=
  { n with m_isLiveEdit := some value }

def hasSourceMapURL (n : ScriptParsedNotification) : Bool := n.m_sourceMapURL.isSome

def getSourceMapURL (n : ScriptParsedNotification) (defaultValue : String) : String :=
  match n.m_sourceMapURL with
  | some v => v
  | none => defaultValue

def setSourceMapURL (n : ScriptParsedNotification) (value : String) : ScriptParsedNotification :=
  { n with m_sourceMapURL := some value }

def hasHasSourceURL (n : ScriptParsedNotification) : Bool := n.m_hasSourceURL.isSome

def getHasSourceURL (n : ScriptParsedNotification) (defaultValue : Bool) : Bool :=
  match n.m_hasSourceURL with
  | some v => v
  | none => defaultValue

def setHasSourceURL (n : ScriptParsedNotification) (value : Bool) : ScriptParsedNotification :=
  { n with m_hasSourceURL := some value }

def hasIsModule (n : ScriptParsedNotification) : Bool := n.m_isModule.isSome

def getIsModule (n : ScriptParsedNotification) (defaultValue : Bool) : Bool :=
  match n.m_isModule with
  | some v => v
  | none => defaultValue

def setIsModule (n : ScriptParsedNotification) (value : Bool) : ScriptParsedNotification :=
  { n with m_isModule := some value }

def hasLength (n : ScriptParsedNotification) : Bool := n.m_length.isSome

def getLength (n : ScriptParsedNotification) (defaultValue : Int) : Int :=
  match n.m_length with
  | some v => v
  | none => defaultValue

def setLength (n : ScriptParsedNotification) (value : Int) : ScriptParsedNotification :=
  { n with m_length := some value }

def hasStackTrace (n : ScriptParsedNotification) : Bool := n.m_stackTrace.isSome

def getStackTrace (n : ScriptParsedNotification) (defaultValue : StackTrace) : StackTrace :=
  match n.m_stackTrace with
  | some v => v
  | none => defaultValue

def setStackTrace (n : ScriptParsedNotification) (value : StackTrace) : ScriptParsedNotification :=
  { n with m_stackTrace := some value }

end ScriptParsedNotification

/-- `ScriptParsedNotificationBuilder<STATE>`
(`script_parsed_notification.h`): the template parameter `STATE` — the
bitmask of required fields set so far — becomes a `Nat` type index; the
builder holds the partially constructed `m_result`. -/
structure ScriptParsedNotificationBuilder (STATE : Nat) where
  m_result : ScriptParsedNotification
deriving DecidableEq, Repr

namespace ScriptParsedNotificationBuilder

/-! The builder's state-bit enumerators, exactly as the anonymous enum
in the source. -/

def NoFieldsSet : Nat := 0

def ScriptIdSet : Nat := 1 <<< 1

def UrlSet : Nat := 1 <<< 2

def StartLineSet : Nat := 1 <<< 3

def StartColumnSet : Nat := 1 <<< 4

def EndLineSet : Nat := 1 <<< 5

def EndColumnSet : Nat := 1 <<< 6

def ExecutionContextIdSet : Nat := 1 <<< 7

def HashSet : Nat := 1 <<< 8

def AllFieldsSet : Nat :=
  ScriptIdSet ||| UrlSet ||| StartLineSet ||| StartColumnSet ||| EndLineSet ||| EndColumnSet |||
    ExecutionContextIdSet ||| HashSet ||| 0

/-! Required-field setters.  Each carries the hypothesis that mirrors
its `static_assert(!(STATE & ...Set))`: a call site where the field is
already set has no proof and is rejected, exactly as the C++ compiler
rejects the instantiation. -/

def setScriptId {STATE : Nat} (b : ScriptParsedNotificationBuilder STATE) (value : String)
    (h : STATE &&& ScriptIdSet = 0) :
    ScriptParsedNotificationBuilder (STATE ||| ScriptIdSet) :=
  ⟨b.m_result.setScriptId value⟩

def setUrl {STATE : Nat} (b : ScriptParsedNotificationBuilder STATE) (value : String)
    (h : STATE &&& UrlSet = 0) :
    ScriptParsedNotificationBuilder (STATE ||| UrlSet) :=
  ⟨b.m_result.setUrl value⟩

def setStartLine {STATE : Nat} (b : ScriptParsedNotificationBuilder STATE) (value : Int)
    (h : STATE &&& StartLineSet = 0) :
    ScriptParsedNotificationBuilder (STATE ||| StartLineSet) :=
  ⟨b.m_result.setStartLine value⟩

def setStartColumn {STATE : Nat} (b : ScriptParsedNotificationBuilder STATE) (value : Int)
    (h : STATE &&& StartColumnSet = 0) :
    ScriptParsedNotificationBuilder (STATE ||| StartColumnSet) :=
  ⟨b.m_result.setStartColumn value⟩

def setEndLine {STATE : Nat} (b : ScriptParsedNotificationBuilder STATE) (value : Int)
    (h : STATE &&& EndLineSet = 0) :
    ScriptParsedNotificationBuilder (STATE ||| EndLineSet) :=
  ⟨b.m_result.setEndLine value⟩

def setEndColumn {STATE : Nat} (b : ScriptParsedNotificationBuilder STATE) (value : Int)
    (h : STATE &&& EndColumnSet = 0) :
    ScriptParsedNotificationBuilder (STATE ||| EndColumnSet) :=
  ⟨b.m_result.setEndColumn value⟩

def setExecutionContextId {STATE : Nat} (b : ScriptParsedNotificationBuilder STATE) (value : Int)
    (h : STATE &&& ExecutionContextIdSet = 0) :
    ScriptParsedNotificationBuilder (STATE ||| ExecutionContextIdSet) :=
  ⟨b.m_result.setExecutionContextId value⟩

def setHash {STATE : Nat} (b : ScriptParsedNotificationBuilder STATE) (value : String)
    (h : STATE &&& HashSet = 0) :
    ScriptParsedNotificationBuilder (STATE ||| HashSet) :=
  ⟨b.m_result.setHash value⟩

/-! Optional-field setters: no guard, STATE unchanged, exactly as in the
source. -/

def setExecutionContextAuxData {STATE : Nat} (b : ScriptParsedNotificationBuilder STATE)
    (value : RapidjsonValue) : ScriptParsedNotificationBuilder STATE :=
  ⟨b.m_result.setExecutionContextAuxData value⟩

def setIsLiveEdit {STATE : Nat} (b : ScriptParsedNotificationBuilder STATE) (value : Bool) :
    ScriptParsedNotificationBuilder STATE :=
  ⟨b.m_result.setIsLiveEdit value⟩

def setSourceMapURL {STATE : Nat} (b : ScriptParsedNotificationBuilder STATE) (value : String) :
    ScriptParsedNotificationBuilder STATE :=
  ⟨b.m_result.setSourceMapURL value⟩

def setHasSourceURL {STATE : Nat} (b : ScriptParsedNotificationBuilder STATE) (value : Bool) :
    ScriptParsedNotificationBuilder STATE :=
  ⟨b.m_result.setHasSourceURL value⟩

def setIsModule {STATE : Nat} (b : ScriptParsedNotificationBuilder STATE) (value : Bool) :
    ScriptParsedNotificationBuilder STATE :=
  ⟨b.m_result.setIsModule value⟩

def setLength {STATE : Nat} (b : ScriptParsedNotificationBuilder STATE) (value : Int) :
    ScriptParsedNotificationBuilder STATE :=
  ⟨b.m_result.setLength value⟩

def setStackTrace {STATE : Nat} (b : ScriptParsedNotificationBuilder STATE) (value : StackTrace) :
    ScriptParsedNotificationBuilder STATE :=
  ⟨b.m_result.setStackTrace value⟩

/-- `build()`: its `static_assert(STATE == AllFieldsSet)` becomes the
hypothesis `h`; releases `m_result`. -/
def build {STATE : Nat} (b : ScriptParsedNotificationBuilder STATE) (h : STATE = AllFieldsSet) :
    ScriptParsedNotification :=
  b.m_result

end ScriptParsedNotificationBuilder

/-- `ScriptParsedNotification::create()`: a builder in state 0 holding a
freshly constructed `ScriptParsedNotification`. -/
def ScriptParsedNotification.create : ScriptParsedNotificationBuilder 0 :=
  ⟨ScriptParsedNotification.ctor⟩

/-- One builder-setter invocation with its argument: the sixteen member
functions of `ScriptParsedNotificationBuilder` other than `build()`,
reified so that properties quantifying over "any operation performed on
the builder" can be stated. -/
inductive BuilderOp where
  | setScriptId (v : String)
  | setUrl (v : String)
  | setStartLine (v : Int)
  | setStartColumn (v : Int)
  | setEndLine (v : Int)
  | setEndColumn (v : Int)
  | setExecutionContextId (v : Int)
  | setHash (v : String)
  | setExecutionContextAuxData (v : RapidjsonValue)
  | setIsLiveEdit (v : Bool)
  | setSourceMapURL (v : String)
  | setHasSourceURL (v : Bool)
  | setIsModule (v : Bool)
  | setLength (v : Int)
  | setStackTrace (v : StackTrace)
deriving DecidableEq, Repr

/-- The effect of one builder setter on the underlying `m_result`: each
builder setter forwards to the corresponding
`ScriptParsedNotification` setter, exactly as
`m_result->set…(value)` in the source. -/
def BuilderOp.applyOp (op : BuilderOp) (n : ScriptParsedNotification) :
    ScriptParsedNotification :=
  match op with
  | .setScriptId v => n.setScriptId v
  | .setUrl v => n.setUrl v
  | .setStartLine v => n.setStartLine v
  | .setStartColumn v => n.setStartColumn v
  | .setEndLine v => n.setEndLine v
  | .setEndColumn v => n.setEndColumn v
  | .setExecutionContextId v => n.setExecutionContextId v
  | .setHash v => n.setHash v
  | .setExecutionContextAuxData v => n.setExecutionContextAuxData v
  | .setIsLiveEdit v => n.setIsLiveEdit v
  | .setSourceMapURL v => n.setSourceMapURL v
  | .setHasSourceURL v => n.setHasSourceURL v
  | .setIsModule v => n.setIsModule v
  | .setLength v => n.setLength v
  | .setStackTrace v => n.setStackTrace v

/-- The state bit a builder setter ORs into the template parameter
`STATE` (`castState<…Set>()` for a required-field setter, nothing for an
optional-field setter, which returns `*this` at the same `STATE`). -/
def BuilderOp.stateBit (op : BuilderOp) : Nat :=
  match op with
  | .setScriptId _ => ScriptParsedNotificationBuilder.ScriptIdSet
  | .setUrl _ => ScriptParsedNotificationBuilder.UrlSet
  | .setStartLine _ => ScriptParsedNotificationBuilder.StartLineSet
  | .setStartColumn _ => ScriptParsedNotificationBuilder.StartColumnSet
  | .setEndLine _ => ScriptParsedNotificationBuilder.EndLineSet
  | .setEndColumn _ => ScriptParsedNotificationBuilder.EndColumnSet
  | .setExecutionContextId _ => ScriptParsedNotificationBuilder.ExecutionContextIdSet
  | .setHash _ => ScriptParsedNotificationBuilder.HashSet
  | _ => 0

/-- The builder `STATE` reached from `create()` (state 0) after a chain
of setter invocations, each ORing in its state bit. -/
def stateAfter (ops : List BuilderOp) : Nat :=
  ops.foldl (fun st op => st ||| op.stateBit) 0

/-- The explicit value an operation writes into `m_startLine`, if any:
only `setStartLine v` writes that member, and it writes exactly `v`. -/
def BuilderOp.writesStartLine (op : BuilderOp) : Option Int :=
  match op with
  | .setStartLine v => some v
  | _ => none

/-- The explicit value an operation writes into `m_startColumn`. -/
def BuilderOp.writesStartColumn (op : BuilderOp) : Option Int :=
  match op with
  | .setStartColumn v => some v
  | _ => none

/-- The explicit value an operation writes into `m_endLine`. -/
def BuilderOp.writesEndLine (op : BuilderOp) : Option Int :=
  match op with
  | .setEndLine v => some v
  | _ => none

/-- The explicit value an operation writes into `m_endColumn`. -/
def BuilderOp.writesEndColumn (op : BuilderOp) : Option Int :=
  match op with
  | .setEndColumn v => some v
  | _ => none

/-- The explicit value an operation writes into `m_executionContextId`. -/
def BuilderOp.writesExecutionContextId (op : BuilderOp) : Option Int :=
  match op with
  | .setExecutionContextId v => some v
  | _ => none

/-- The notification built by setting all eight required fields in
declaration order starting from `create()`, then calling `build()`: the
canonical fully-set builder chain.  Every guard is the corresponding
`static_assert` discharged on the concrete state. -/
def buildWithAllRequired (sid u : String) (sl sc el ec xid : Int) (hv : String) :
    ScriptParsedNotification :=
  ScriptParsedNotificationBuilder.build
    ((((((((ScriptParsedNotification.create.setScriptId sid (by decide)).setUrl u
      (by decide)).setStartLine sl (by decide)).setStartColumn sc
      (by decide)).setEndLine el (by decide)).setEndColumn ec
      (by decide)).setExecutionContextId xid (by decide)).setHash hv
      (by decide)) (by decide)

/-! ## Helper lemmas -/

theorem lor_land_distrib (a b c : Nat) : (a ||| b) &&& c = (a &&& c) ||| (b &&& c) := by
  apply Nat.eq_of_testBit_eq
  intro i
  simp only [Nat.testBit_land, Nat.testBit_lor]
  cases a.testBit i <;> cases b.testBit i <;> cases c.testBit i <;> rfl

theorem lor_land_self (a b : Nat) : (a ||| b) &&& b = b := by
  apply Nat.eq_of_testBit_eq
  intro i
  simp only [Nat.testBit_land, Nat.testBit_lor]
  cases a.testBit i <;> cases b.testBit i <;> rfl

theorem stateAfter_foldl_land_zero (bit : Nat) (ops : List BuilderOp) :
    ∀ s : Nat, (∀ op ∈ ops, op.stateBit &&& bit = 0) → s &&& bit = 0 →
      (ops.foldl (fun st op => st ||| op.stateBit) s) &&& bit = 0 := by
  induction ops with
  | nil => intro s _ hs; simpa using hs
  | cons op ops ih =>
    intro s hops hs
    simp only [List.foldl_cons]
    apply ih
    · intro o ho
      exact hops o (List.mem_cons_of_mem _ ho)
    · rw [lor_land_distrib, hs, hops op (List.mem_cons_self _ _)]
      decide

/-! ## Claim theorems -/

/-- C1: `JSCPageAgentImpl::reload`, for any values of its optional
arguments: when the session pointer and its protocol handler are both
live, it invokes `handlePageReload` exactly once and returns
`DispatchResponse::OK()`; otherwise it returns
`DispatchResponse::Error("session destroyed or protocol handler
destroyed")`, does not invoke the hook, and leaves the agent state — in
particular `m_enabled` — unchanged. -/
theorem reload_session_liveness (a : JSCPageAgentImpl) (ic : Maybe Bool) (sc : Maybe String) :
    ((∃ s p, a.m_session = some s ∧ s.protocolHandler = some p) →
      a.reload ic sc = (a, DispatchResponse.OK, 1)) ∧
    ((¬ ∃ s p, a.m_session = some s ∧ s.protocolHandler = some p) →
      a.reload ic sc =
        (a, DispatchResponse.Error "session destroyed or protocol handler destroyed", 0) ∧
      (a.reload ic sc).1.m_enabled = a.m_enabled) := by
  constructor
  · rintro ⟨s, p, hs, hp⟩
    simp [JSCPageAgentImpl.reload, hs, hp]
  · intro hn
    match hms : a.m_session with
    | none => simp [JSCPageAgentImpl.reload, hms]
    | some s =>
      match hp : s.protocolHandler with
      | none => simp [JSCPageAgentImpl.reload, hms, hp]
      | some p => exact absurd ⟨s, p, hms, hp⟩ hn

theorem reload_session_liveness_witness :
    JSCPageAgentImpl.reload (JSCPageAgentImpl.init (some ⟨some ⟨()⟩⟩)) (some true) none =
      (JSCPageAgentImpl.init (some ⟨some ⟨()⟩⟩), DispatchResponse.OK, 1) ∧
    JSCPageAgentImpl.reload (JSCPageAgentImpl.init none) none (some "code") =
      (JSCPageAgentImpl.init none,
        DispatchResponse.Error "session destroyed or protocol handler destroyed", 0) :=
  ⟨(reload_session_liveness _ _ _).1 ⟨_, _, rfl, rfl⟩,
   ((reload_session_liveness _ _ _).2
      (by rintro ⟨s, p, hs, hp⟩; simp [JSCPageAgentImpl.init] at hs)).1⟩

/-- C4: `JSCLogAgentImpl::addMessageToConsole` (modelled from the spec;
its body is not under `src/`): when `m_enabled` is false the entry is
dropped and no event is emitted; when true, a `Log.entryAdded`
notification carrying the entry unchanged is forwarded through the
frontend channel. -/
theorem addMessageToConsole_enabled_gate (a : JSCLogAgentImpl) (e : LogEntry) :
    (a.m_enabled = false → a.addMessageToConsole e = (a, [])) ∧
    (a.m_enabled = true →
      a.addMessageToConsole e = (a, [LogFrontendEvent.entryAdded e])) := by
  constructor <;> intro h <;> simp [JSCLogAgentImpl.addMessageToConsole, h]

theorem addMessageToConsole_enabled_gate_witness :
    JSCLogAgentImpl.addMessageToConsole ⟨false, none⟩ ⟨"warning", "x"⟩ =
      (⟨false, none⟩, []) ∧
    JSCLogAgentImpl.addMessageToConsole ⟨true, none⟩ ⟨"warning", "x"⟩ =
      (⟨true, none⟩, [LogFrontendEvent.entryAdded ⟨"warning", "x"⟩]) :=
  ⟨(addMessageToConsole_enabled_gate _ _).1 rfl,
   (addMessageToConsole_enabled_gate _ _).2 rfl⟩

/-- C5: `JSCPageAgentImpl::enable` sets `m_enabled` to true and returns
`DispatchResponse::OK()`; `disable` sets it to false and returns OK;
both are idempotent (repeating the call changes nothing) and neither
ever returns an error. -/
theorem page_enable_disable_idempotent (a : JSCPageAgentImpl) :
    a.enable.2 = DispatchResponse.OK ∧ a.enable.1.m_enabled = true ∧
    a.disable.2 = DispatchResponse.OK ∧ a.disable.1.m_enabled = false ∧
    a.enable.1.enable = a.enable ∧ a.disable.1.disable = a.disable := by
  simp [JSCPageAgentImpl.enable, JSCPageAgentImpl.disable]

/-- C6: both domain backends start Disabled (`m_enabled{false}` at
construction) and follow the two-state machine: `enable()` moves to
Enabled, `disable()` to Disabled, and no other operation — `reload` on
Page, `clear` and `addMessageToConsole` on Log — changes the flag.  The
flag is a `Bool`, so Enabled and Disabled are the only states. -/
theorem backend_two_state_machine :
    (∀ s, (JSCPageAgentImpl.init s).m_enabled = false) ∧
    (∀ s, (JSCLogAgentImpl.init s).m_enabled = false) ∧
    (∀ a : JSCPageAgentImpl, a.enable.1.m_enabled = true ∧ a.disable.1.m_enabled = false) ∧
    (∀ a : JSCLogAgentImpl, a.enable.1.m_enabled = true ∧ a.disable.1.m_enabled = false) ∧
    (∀ (a : JSCPageAgentImpl) (ic : Maybe Bool) (sc : Maybe String),
      (a.reload ic sc).1.m_enabled = a.m_enabled) ∧
    (∀ a : JSCLogAgentImpl, a.clear.1.m_enabled = a.m_enabled) ∧
    (∀ (a : JSCLogAgentImpl) (e : LogEntry),
      (a.addMessageToConsole e).1.m_enabled = a.m_enabled) := by
  refine ⟨fun s => rfl, fun s => rfl, fun a => ⟨rfl, rfl⟩, fun a => ⟨rfl, rfl⟩, ?_,
    fun a => rfl, ?_⟩
  · intro a ic sc
    match hms : a.m_session with
    | none => simp [JSCPageAgentImpl.reload, hms]
    | some s =>
      match hp : s.protocolHandler with
      | none => simp [JSCPageAgentImpl.reload, hms, hp]
      | some p => simp [JSCPageAgentImpl.reload, hms, hp]
  · intro a e
    unfold JSCLogAgentImpl.addMessageToConsole
    split <;> rfl

/-- C10: the response and hook-invocation count of
`JSCPageAgentImpl::reload` depend only on `m_session` (and its
handler): two calls on agents with the same session, with any argument
values and any `m_enabled` flags, produce identical observable
outcomes, and with a live handler the reload fires even while the
backend is disabled. -/
theorem reload_noninterference :
    (∀ (a a' : JSCPageAgentImpl) (ic ic' : Maybe Bool) (sc sc' : Maybe String),
      a.m_session = a'.m_session →
      (a.reload ic sc).2 = (a'.reload ic' sc').2) ∧
    (∀ (a : JSCPageAgentImpl) (ic : Maybe Bool) (sc : Maybe String)
      (s : InspectorSessionImpl) (p : ProtocolHandler),
      a.m_enabled = false → a.m_session = some s → s.protocolHandler = some p →
      (a.reload ic sc).2 = (DispatchResponse.OK, 1)) := by
  constructor
  · intro a a' ic ic' sc sc' h
    match hms : a'.m_session with
    | none => simp [JSCPageAgentImpl.reload, h, hms]
    | some s =>
      match hp : s.protocolHandler with
      | none => simp [JSCPageAgentImpl.reload, h, hms, hp]
      | some p => simp [JSCPageAgentImpl.reload, h, hms, hp]
  · intro a ic sc s p _ hs hp
    simp [JSCPageAgentImpl.reload, hs, hp]

theorem reload_noninterference_witness :
    (JSCPageAgentImpl.reload ⟨false, some ⟨some ⟨()⟩⟩⟩ none none).2 =
      (JSCPageAgentImpl.reload ⟨true, some ⟨some ⟨()⟩⟩⟩ (some true) (some "code")).2 ∧
    (JSCPageAgentImpl.reload ⟨false, some ⟨some ⟨()⟩⟩⟩ none none).2 =
      (DispatchResponse.OK, 1) :=
  ⟨reload_noninterference.1 _ _ _ _ _ _ rfl,
   reload_noninterference.2 _ _ _ _ _ rfl rfl rfl⟩

/-- C2: `build()` yields a notification exactly when the builder state
is `AllFieldsSet`; a state in which any one of the eight required-field
bits is still clear is never `AllFieldsSet`, so the `static_assert` in
`build()` rejects finalizing with that field unset before any
incomplete value can be observed. -/
theorem build_requires_all_required_fields :
    (∀ STATE : Nat,
      (STATE &&& ScriptParsedNotificationBuilder.ScriptIdSet = 0 ∨
        STATE &&& ScriptParsedNotificationBuilder.UrlSet = 0 ∨
        STATE &&& ScriptParsedNotificationBuilder.StartLineSet = 0 ∨
        STATE &&& ScriptParsedNotificationBuilder.StartColumnSet = 0 ∨
        STATE &&& ScriptParsedNotificationBuilder.EndLineSet = 0 ∨
        STATE &&& ScriptParsedNotificationBuilder.EndColumnSet = 0 ∨
        STATE &&& ScriptParsedNotificationBuilder.ExecutionContextIdSet = 0 ∨
        STATE &&& ScriptParsedNotificationBuilder.HashSet = 0) →
      STATE ≠ ScriptParsedNotificationBuilder.AllFieldsSet) ∧
    (∀ b : ScriptParsedNotificationBuilder ScriptParsedNotificationBuilder.AllFieldsSet,
      b.build rfl = b.m_result) := by
  constructor
  · rintro STATE h rfl
    rcases h with h | h | h | h | h | h | h | h <;> exact absurd h (by decide)
  · intro b
    rfl

theorem build_requires_all_required_fields_witness :
    (ScriptParsedNotificationBuilder.ScriptIdSet ≠
      ScriptParsedNotificationBuilder.AllFieldsSet) ∧
    ScriptParsedNotificationBuilder.build ⟨ScriptParsedNotification.ctor⟩ rfl =
      ScriptParsedNotification.ctor :=
  ⟨build_requires_all_required_fields.1 _ (Or.inr (Or.inl (by decide))),
   build_requires_all_required_fields.2 ⟨ScriptParsedNotification.ctor⟩⟩

/-- C3: calling any required-field setter a second time in the same
builder chain is rejected: for each of the eight required-field setters
(`setScriptId`, `setUrl`, `setStartLine`, `setStartColumn`,
`setEndLine`, `setEndColumn`, `setExecutionContextId`, `setHash`), once
the setter has run on a builder in any state where its guard held, the
resulting state contains that field's bit, so the guard
`STATE & Bit == 0` demanded by a second call's `static_assert` can
never hold: the overwrite is unrepresentable. -/
theorem set_required_field_twice_rejected :
    (∀ (STATE : Nat) (b : ScriptParsedNotificationBuilder STATE) (v : String)
      (h : STATE &&& ScriptParsedNotificationBuilder.ScriptIdSet = 0),
      ¬ ((STATE ||| ScriptParsedNotificationBuilder.ScriptIdSet) &&&
          ScriptParsedNotificationBuilder.ScriptIdSet = 0)) ∧
    (∀ (STATE : Nat) (b : ScriptParsedNotificationBuilder STATE) (v : String)
      (h : STATE &&& ScriptParsedNotificationBuilder.UrlSet = 0),
      ¬ ((STATE ||| ScriptParsedNotificationBuilder.UrlSet) &&&
          ScriptParsedNotificationBuilder.UrlSet = 0)) ∧
    (∀ (STATE : Nat) (b : ScriptParsedNotificationBuilder STATE) (v : Int)
      (h : STATE &&& ScriptParsedNotificationBuilder.StartLineSet = 0),
      ¬ ((STATE ||| ScriptParsedNotificationBuilder.StartLineSet) &&&
          ScriptParsedNotificationBuilder.StartLineSet = 0)) ∧
    (∀ (STATE : Nat) (b : ScriptParsedNotificationBuilder STATE) (v : Int)
      (h : STATE &&& ScriptParsedNotificationBuilder.StartColumnSet = 0),
      ¬ ((STATE ||| ScriptParsedNotificationBuilder.StartColumnSet) &&&
          ScriptParsedNotificationBuilder.StartColumnSet = 0)) ∧
    (∀ (STATE : Nat) (b : ScriptParsedNotificationBuilder STATE) (v : Int)
      (h : STATE &&& ScriptParsedNotificationBuilder.EndLineSet = 0),
      ¬ ((STATE ||| ScriptParsedNotificationBuilder.EndLineSet) &&&
          ScriptParsedNotificationBuilder.EndLineSet = 0)) ∧
    (∀ (STATE : Nat) (b : ScriptParsedNotificationBuilder STATE) (v : Int)
      (h : STATE &&& ScriptParsedNotificationBuilder.EndColumnSet = 0),
      ¬ ((STATE ||| ScriptParsedNotificationBuilder.EndColumnSet) &&&
          ScriptParsedNotificationBuilder.EndColumnSet = 0)) ∧
    (∀ (STATE : Nat) (b : ScriptParsedNotificationBuilder STATE) (v : Int)
      (h : STATE &&& ScriptParsedNotificationBuilder.ExecutionContextIdSet = 0),
      ¬ ((STATE ||| ScriptParsedNotificationBuilder.ExecutionContextIdSet) &&&
          ScriptParsedNotificationBuilder.ExecutionContextIdSet = 0)) ∧
    (∀ (STATE : Nat) (b : ScriptParsedNotificationBuilder STATE) (v : String)
      (h : STATE &&& ScriptParsedNotificationBuilder.HashSet = 0),
      ¬ ((STATE ||| ScriptParsedNotificationBuilder.HashSet) &&&
          ScriptParsedNotificationBuilder.HashSet = 0)) := by
  refine ⟨?_, ?_, ?_, ?_, ?_, ?_, ?_, ?_⟩ <;>
  · intro STATE b v h h2
    rw [lor_land_self] at h2
    exact absurd h2 (by decide)

theorem set_required_field_twice_rejected_witness :
    ¬ (((0 : Nat) ||| ScriptParsedNotificationBuilder.ScriptIdSet) &&&
        ScriptParsedNotificationBuilder.ScriptIdSet = 0) ∧
    ¬ (((0 : Nat) ||| ScriptParsedNotificationBuilder.UrlSet) &&&
        ScriptParsedNotificationBuilder.UrlSet = 0) ∧
    ¬ (((0 : Nat) ||| ScriptParsedNotificationBuilder.StartLineSet) &&&
        ScriptParsedNotificationBuilder.StartLineSet = 0) ∧
    ¬ (((0 : Nat) ||| ScriptParsedNotificationBuilder.StartColumnSet) &&&
        ScriptParsedNotificationBuilder.StartColumnSet = 0) ∧
    ¬ (((0 : Nat) ||| ScriptParsedNotificationBuilder.EndLineSet) &&&
        ScriptParsedNotificationBuilder.EndLineSet = 0) ∧
    ¬ (((0 : Nat) ||| ScriptParsedNotificationBuilder.EndColumnSet) &&&
        ScriptParsedNotificationBuilder.EndColumnSet = 0) ∧
    ¬ (((0 : Nat) ||| ScriptParsedNotificationBuilder.ExecutionContextIdSet) &&&
        ScriptParsedNotificationBuilder.ExecutionContextIdSet = 0) ∧
    ¬ (((0 : Nat) ||| ScriptParsedNotificationBuilder.HashSet) &&&
        ScriptParsedNotificationBuilder.HashSet = 0) :=
  ⟨set_required_field_twice_rejected.1 0 ScriptParsedNotification.create "sid" (by decide),
   set_required_field_twice_rejected.2.1 0 ScriptParsedNotification.create "app.js" (by decide),
   set_required_field_twice_rejected.2.2.1 0 ScriptParsedNotification.create 1 (by decide),
   set_required_field_twice_rejected.2.2.2.1 0 ScriptParsedNotification.create 2 (by decide),
   set_required_field_twice_rejected.2.2.2.2.1 0 ScriptParsedNotification.create 3 (by decide),
   set_required_field_twice_rejected.2.2.2.2.2.1 0 ScriptParsedNotification.create 4
     (by decide),
   set_required_field_twice_rejected.2.2.2.2.2.2.1 0 ScriptParsedNotification.create 5
     (by decide),
   set_required_field_twice_rejected.2.2.2.2.2.2.2 0 ScriptParsedNotification.create "hash"
     (by decide)⟩

/-- C7: building with all eight required fields set succeeds, and every
getter of the built notification returns exactly the value passed to
the corresponding setter. -/
theorem script_parsed_round_trip (sid u : String) (sl sc el ec xid : Int) (hv : String) :
    (buildWithAllRequired sid u sl sc el ec xid hv).getScriptId = sid ∧
    (buildWithAllRequired sid u sl sc el ec xid hv).getUrl = u ∧
    (buildWithAllRequired sid u sl sc el ec xid hv).getStartLine = sl ∧
    (buildWithAllRequired sid u sl sc el ec xid hv).getStartColumn = sc ∧
    (buildWithAllRequired sid u sl sc el ec xid hv).getEndLine = el ∧
    (buildWithAllRequired sid u sl sc el ec xid hv).getEndColumn = ec ∧
    (buildWithAllRequired sid u sl sc el ec xid hv).getExecutionContextId = xid ∧
    (buildWithAllRequired sid u sl sc el ec xid hv).getHash = hv :=
  ⟨rfl, rfl, rfl, rfl, rfl, rfl, rfl, rfl⟩

/-- C8: for every optional field of `ScriptParsedNotification`: while
the field is absent, its `has…` accessor returns false and its getter
returns the supplied default; after its setter runs with `v`, `has…`
returns true and the getter returns `v` whatever default is supplied. -/
theorem optional_field_semantics :
    (∀ (n : ScriptParsedNotification) (v d : RapidjsonValue),
      (n.m_executionContextAuxData = none →
        n.hasExecutionContextAuxData = false ∧ n.getExecutionContextAuxData d = d) ∧
      (n.setExecutionContextAuxData v).hasExecutionContextAuxData = true ∧
      (n.setExecutionContextAuxData v).getExecutionContextAuxData d = v) ∧
    (∀ (n : ScriptParsedNotification) (v d : Bool),
      (n.m_isLiveEdit = none → n.hasIsLiveEdit = false ∧ n.getIsLiveEdit d = d) ∧
      (n.setIsLiveEdit v).hasIsLiveEdit = true ∧ (n.setIsLiveEdit v).getIsLiveEdit d = v) ∧
    (∀ (n : ScriptParsedNotification) (v d : String),
      (n.m_sourceMapURL = none → n.hasSourceMapURL = false ∧ n.getSourceMapURL d = d) ∧
      (n.setSourceMapURL v).hasSourceMapURL = true ∧
      (n.setSourceMapURL v).getSourceMapURL d = v) ∧
    (∀ (n : ScriptParsedNotification) (v d : Bool),
      (n.m_hasSourceURL = none → n.hasHasSourceURL = false ∧ n.getHasSourceURL d = d) ∧
      (n.setHasSourceURL v).hasHasSourceURL = true ∧
      (n.setHasSourceURL v).getHasSourceURL d = v) ∧
    (∀ (n : ScriptParsedNotification) (v d : Bool),
      (n.m_isModule = none → n.hasIsModule = false ∧ n.getIsModule d = d) ∧
      (n.setIsModule v).hasIsModule = true ∧ (n.setIsModule v).getIsModule d = v) ∧
    (∀ (n : ScriptParsedNotification) (v d : Int),
      (n.m_length = none → n.hasLength = false ∧ n.getLength d = d) ∧
      (n.setLength v).hasLength = true ∧ (n.setLength v).getLength d = v) ∧
    (∀ (n : ScriptParsedNotification) (v d : StackTrace),
      (n.m_stackTrace = none → n.hasStackTrace = false ∧ n.getStackTrace d = d) ∧
      (n.setStackTrace v).hasStackTrace = true ∧ (n.setStackTrace v).getStackTrace d = v) := by
  refine ⟨?_, ?_, ?_, ?_, ?_, ?_, ?_⟩ <;>
  · intro n v d
    refine ⟨fun h => ?_, rfl, rfl⟩
    simp [ScriptParsedNotification.hasExecutionContextAuxData,
      ScriptParsedNotification.getExecutionContextAuxData,
      ScriptParsedNotification.hasIsLiveEdit, ScriptParsedNotification.getIsLiveEdit,
      ScriptParsedNotification.hasSourceMapURL, ScriptParsedNotification.getSourceMapURL,
      ScriptParsedNotification.hasHasSourceURL, ScriptParsedNotification.getHasSourceURL,
      ScriptParsedNotification.hasIsModule, ScriptParsedNotification.getIsModule,
      ScriptParsedNotification.hasLength, ScriptParsedNotification.getLength,
      ScriptParsedNotification.hasStackTrace, ScriptParsedNotification.getStackTrace, h]

theorem optional_field_semantics_witness :
    (ScriptParsedNotification.ctor.hasSourceMapURL = false ∧
      ScriptParsedNotification.ctor.getSourceMapURL "default" = "default") ∧
    (ScriptParsedNotification.ctor.setSourceMapURL "app.js.map").hasSourceMapURL = true ∧
    (ScriptParsedNotification.ctor.setSourceMapURL "app.js.map").getSourceMapURL "default" =
      "app.js.map" :=
  ⟨(optional_field_semantics.2.2.1 ScriptParsedNotification.ctor "app.js.map" "default").1 rfl,
   (optional_field_semantics.2.2.1 ScriptParsedNotification.ctor "app.js.map" "default").2⟩

theorem stateBit_land_scriptIdSet (op : BuilderOp)
    (h : ∀ v, op ≠ BuilderOp.setScriptId v) :
    op.stateBit &&& ScriptParsedNotificationBuilder.ScriptIdSet = 0 := by
  cases op <;> first | exact absurd rfl (h _) | (simp only [BuilderOp.stateBit]; decide)

theorem stateBit_land_urlSet (op : BuilderOp) (h : ∀ v, op ≠ BuilderOp.setUrl v) :
    op.stateBit &&& ScriptParsedNotificationBuilder.UrlSet = 0 := by
  cases op <;> first | exact absurd rfl (h _) | (simp only [BuilderOp.stateBit]; decide)

theorem stateBit_land_hashSet (op : BuilderOp) (h : ∀ v, op ≠ BuilderOp.setHash v) :
    op.stateBit &&& ScriptParsedNotificationBuilder.HashSet = 0 := by
  cases op <;> first | exact absurd rfl (h _) | (simp only [BuilderOp.stateBit]; decide)

/-- C9: in the builder's initial state the integer fields are 0; any
subsequent operation changes an integer field only when it is that
field's own setter, and then to exactly the explicitly passed value —
never a silent substitution; and the string identity fields (scriptId,
url, hash) must be explicitly set: a chain that never calls the field's
setter stays in a state missing that field's bit, which never satisfies
`build()`'s `AllFieldsSet` requirement. -/
theorem numeric_identity_defaults :
    (ScriptParsedNotification.create.m_result.m_startLine = 0 ∧
      ScriptParsedNotification.create.m_result.m_startColumn = 0 ∧
      ScriptParsedNotification.create.m_result.m_endLine = 0 ∧
      ScriptParsedNotification.create.m_result.m_endColumn = 0 ∧
      ScriptParsedNotification.create.m_result.m_executionContextId = 0) ∧
    (∀ (op : BuilderOp) (n : ScriptParsedNotification),
      (op.applyOp n).m_startLine = op.writesStartLine.getD n.m_startLine ∧
      (op.applyOp n).m_startColumn = op.writesStartColumn.getD n.m_startColumn ∧
      (op.applyOp n).m_endLine = op.writesEndLine.getD n.m_endLine ∧
      (op.applyOp n).m_endColumn = op.writesEndColumn.getD n.m_endColumn ∧
      (op.applyOp n).m_executionContextId =
        op.writesExecutionContextId.getD n.m_executionContextId) ∧
    (∀ ops : List BuilderOp, (∀ op ∈ ops, ∀ v, op ≠ BuilderOp.setScriptId v) →
      stateAfter ops &&& ScriptParsedNotificationBuilder.ScriptIdSet = 0 ∧
      stateAfter ops ≠ ScriptParsedNotificationBuilder.AllFieldsSet) ∧
    (∀ ops : List BuilderOp, (∀ op ∈ ops, ∀ v, op ≠ BuilderOp.setUrl v) →
      stateAfter ops &&& ScriptParsedNotificationBuilder.UrlSet = 0 ∧
      stateAfter ops ≠ ScriptParsedNotificationBuilder.AllFieldsSet) ∧
    (∀ ops : List BuilderOp, (∀ op ∈ ops, ∀ v, op ≠ BuilderOp.setHash v) →
      stateAfter ops &&& ScriptParsedNotificationBuilder.HashSet = 0 ∧
      stateAfter ops ≠ ScriptParsedNotificationBuilder.AllFieldsSet) := by
  refine ⟨⟨rfl, rfl, rfl, rfl, rfl⟩, ?_, ?_, ?_, ?_⟩
  · intro op n
    cases op <;> exact ⟨rfl, rfl, rfl, rfl, rfl⟩
  · intro ops hops
    have hz : stateAfter ops &&& ScriptParsedNotificationBuilder.ScriptIdSet = 0 :=
      stateAfter_foldl_land_zero _ ops 0
        (fun op hop => stateBit_land_scriptIdSet op (hops op hop)) (by decide)
    exact ⟨hz, fun heq => absurd (heq ▸ hz) (by decide)⟩
  · intro ops hops
    have hz : stateAfter ops &&& ScriptParsedNotificationBuilder.UrlSet = 0 :=
      stateAfter_foldl_land_zero _ ops 0
        (fun op hop => stateBit_land_urlSet op (hops op hop)) (by decide)
    exact ⟨hz, fun heq => absurd (heq ▸ hz) (by decide)⟩
  · intro ops hops
    have hz : stateAfter ops &&& ScriptParsedNotificationBuilder.HashSet = 0 :=
      stateAfter_foldl_land_zero _ ops 0
        (fun op hop => stateBit_land_hashSet op (hops op hop)) (by decide)
    exact ⟨hz, fun heq => absurd (heq ▸ hz) (by decide)⟩

theorem numeric_identity_defaults_witness :
    stateAfter [BuilderOp.setUrl "app.js"] &&&
      ScriptParsedNotificationBuilder.ScriptIdSet = 0 ∧
    stateAfter [BuilderOp.setUrl "app.js"] ≠
      ScriptParsedNotificationBuilder.AllFieldsSet :=
  numeric_identity_defaults.2.2.1 [BuilderOp.setUrl "app.js"]
    (by
      intro op hop v
      simp only [List.mem_singleton] at hop
      subst hop
      exact fun hbad => BuilderOp.noConfusion hbad)
